import Mathlib

/-!
Shallow embedding of `bauh/view/core/downloader.py`
(`AdaptableFileDownloader`) and proofs about its behaviour.

The host state (which executables are installed, what the filesystem
contains, how the launched external process behaves) is passed explicitly;
side effects of a `download` call are recorded as an event trace.
-/

namespace Downloader

/-- Split a character list on a separator, keeping empty groups
(the behaviour of Python `str.split` with an explicit separator). -/
def splitOnChar (sep : Char) : List Char → List (List Char)
  | [] => [[]]
  | c :: cs =>
      let r := splitOnChar sep cs
      if c = sep then [] :: r
      else
        match r with
        | [] => [[c]]
        | g :: gs => (c :: g) :: gs

/-- Python last path segment: the final element of splitting on the slash
character, as in `s.split(slash)[-1]`. -/
def lastPart (s : String) : String :=
  String.mk ((splitOnChar '/' s.toList).getLastD [])

/-- Python `os.path.dirname` for plain relative/absolute POSIX paths:
everything before the final slash (empty when there is no slash). -/
def dirname (s : String) : String :=
  String.mk (List.intercalate ['/'] ((splitOnChar '/' s.toList).dropLast))

/-- Test whether `p` is an initial segment of `l`. -/
def listStartsWith : List Char → List Char → Bool
  | [], _ => true
  | _ :: _, [] => false
  | p :: ps, c :: cs => p = c && listStartsWith ps cs

/-- Test whether `pat` occurs contiguously inside `l`. -/
def listHasSub (pat : List Char) : List Char → Bool
  | [] => listStartsWith pat []
  | c :: cs => listStartsWith pat (c :: cs) || listHasSub pat cs

/-- Substring test on strings (used to talk about sink messages). -/
def strHasSub (pat s : String) : Bool :=
  listHasSub pat.toList s.toList

/-- A regex `\w` character (ASCII word character). -/
def isWordChar (c : Char) : Bool :=
  c.isAlphanum || c = '_'

/-- The regex `RE_HAS_EXTENSION` (at least one character, then a dot, then a
nonempty run of word characters, anchored at the end) as used with
`re.match`: the string ends in a dot followed by a nonempty run of word
characters, with at least one character before the dot. -/
def hasExtension (s : String) : Bool :=
  let rev := s.toList.reverse
  let w := rev.takeWhile isWordChar
  let rest := rev.drop w.length
  decide (0 < w.length) &&
    (match rest with
     | '.' :: t => decide (0 < t.length)
     | _ => false)

/-- Which download executables `shutil.which` finds on the host. -/
structure Host where
  aria2 : Bool
  axel : Bool
  wget : Bool
  deriving DecidableEq

/-- The constructor arguments of `AdaptableFileDownloader` that the
modelled methods read (plus the localized "downloading" label the
instance obtains from its `I18n`). -/
structure Config where
  multithread_enabled : Bool
  multithread_client : Option String
  check_ssl : Bool
  i18n_downloading : String
  deriving DecidableEq

/-- The catalog `self.supported_multithread_clients`: aria2, then axel. -/
def supported_multithread_clients : List String := ["aria2", "axel"]

/-- Model of `is_multithreaded_client_available`. -/
def is_multithreaded_client_available (h : Host) (name : String) : Bool :=
  if name = "aria2" then h.aria2
  else if name = "axel" then h.axel
  else false

/-- Model of `get_available_multithreaded_tool`.  The Python set difference
`{*supported} - {client}` is embedded as a filter (the catalog has no
duplicates and, after removing the preferred client, a single candidate
remains, so iteration order is immaterial). -/
def get_available_multithreaded_tool (cfg : Config) (h : Host) : Option String :=
  if cfg.multithread_enabled then
    match cfg.multithread_client with
    | none =>
        supported_multithread_clients.find? (is_multithreaded_client_available h)
    | some c =>
        if c ∈ supported_multithread_clients then
          if is_multithreaded_client_available h c then some c
          else
            (supported_multithread_clients.filter (fun x => x ≠ c)).find?
              (is_multithreaded_client_available h)
        else
          supported_multithread_clients.find? (is_multithreaded_client_available h)
  else none

/-- Model of `is_multithreaded`. -/
def is_multithreaded (cfg : Config) (h : Host) : Bool :=
  (get_available_multithreaded_tool cfg h).isSome

/-- Model of `can_work`. -/
def can_work (cfg : Config) (h : Host) : Bool :=
  h.wget || is_multithreaded cfg h

/-- Model of `list_available_multithreaded_clients`. -/
def list_available_multithreaded_clients (h : Host) : List String :=
  supported_multithread_clients.filter (is_multithreaded_client_available h)

/-- Python truthiness of an optional integer (`None` and `0` are falsy). -/
def intTruthy : Option Int → Bool
  | none => false
  | some n => decide (n ≠ 0)

/-- Model of `_get_appropriate_threads_number`.  The Python
`floor(known_size / 1000000)` is floor division, `Int.fdiv`. -/
def get_appropriate_threads_number (max_threads known_size : Option Int) : Int :=
  if intTruthy max_threads && decide (0 < max_threads.getD 0) then
    max_threads.getD 0
  else if intTruthy known_size then
    let s := known_size.getD 0
    let threads : Int := if 16000000 ≤ s then 16 else Int.fdiv s 1000000
    if threads ≤ 0 then 1 else threads
  else 16

/-- The reference backend-resolution policy, written from the
specification text (section 4.1): disabled mode yields none; otherwise a
missing or unrecognized preference scans the catalog in priority order
(aria2 before axel); a recognized available preference wins; a
recognized unavailable preference falls back to the remaining
candidates in their catalog (insertion) order. -/
def resolveSpecPolicy (cfg : Config) (h : Host) : Option String :=
  if !cfg.multithread_enabled then none
  else
    match cfg.multithread_client with
    | none =>
        if h.aria2 then some "aria2" else if h.axel then some "axel" else none
    | some c =>
        if c = "aria2" then
          if h.aria2 then some "aria2" else if h.axel then some "axel" else none
        else if c = "axel" then
          if h.axel then some "axel" else if h.aria2 then some "aria2" else none
        else
          if h.aria2 then some "aria2" else if h.axel then some "axel" else none

/-- The external process `download` builds and launches (one constructor
per builder method `_get_aria2c_process` / `_get_axel_process` /
`_get_wget_process`). -/
inductive Proc where
  | aria2 (url : String) (output_path : Option String) (cwd : String) (threads : Int)
  | axel (url : String) (output_path : Option String) (cwd : String) (threads : Int)
      (check_ssl : Bool)
  | wget (url : String) (output_path : Option String) (cwd : String) (check_ssl : Bool)
  deriving DecidableEq

/-- Observable side effects of a `download` call, in program order. -/
inductive Event where
  | logInfo (msg : String)
  | logError (msg : String)
  | sinkPrintMkdirError (dir : String)
  | substatus (msg : String)
  | removeFile (path : String)
  | mkdirAttempt (dir : String)
  | launch (p : Proc)
  | rmBad (path : String)
  | logElapsed (fileName : String)
  deriving DecidableEq

/-- Result of the content-length probe `http_client.get_content_length`:
either it raises, or it returns a value (`none`/empty string are falsy). -/
inductive ProbeOutcome where
  | raised
  | value (v : Option String)
  deriving DecidableEq

/-- How the try-block of `download` terminates: the early `return False`
on a directory-creation error, an exception reaching the bare `except`,
or `handler.handle_simple(process)` returning a success flag. -/
inductive TryExit where
  | earlyReturnFalse
  | raised
  | completed (success : Bool)
  deriving DecidableEq

/-- Host-side state a single `download` call interacts with.
`procResult = none` models an exception raised while launching or
supervising the external process; `procWrote` is whether the output
artifact exists on disk once that call is over; `rmOk` is the success
flag of the `rm -rf` cleanup process. -/
structure World where
  initFS : String → Bool
  mkdirOk : Bool
  procResult : Option Bool
  procWrote : Bool
  rmOk : Bool
  probe : ProbeOutcome
  host : Host

/-- The arguments of a `download` call (`watcher` is modelled by whether
one is present). -/
structure Request where
  file_url : String
  outputPath : Option String
  cwd : Option String
  hasWatcher : Bool
  substatusPrefix : Option String
  displayFileSize : Bool
  maxThreads : Option Int
  knownSize : Option Int

/-- The effective working directory: the `cwd` argument when truthy, else
the current-directory dot. -/
def finalCwd (req : Request) : String :=
  match req.cwd with
  | some c => if c = "" then "." else c
  | none => "."

/-- The path `_rm_bad_file` targets: the explicit output path if given,
else `<final_cwd>/<file_name>`; also where the external process writes. -/
def artifactPath (req : Request) : String :=
  match req.outputPath with
  | some p => p
  | none => finalCwd req ++ "/" ++ lastPart req.file_url

/-- Modelled from the spec: `bauh.commons.html.bold` (not under `src/`)
wraps text in bold markup. -/
def bold (s : String) : String := "<b>" ++ s ++ "</b>"

/-- Modelled from the spec: `bauh.commons.view_utils.get_human_size_str`
(not under `src/`) renders a byte count as human-readable text; claims
never depend on the exact rendering. -/
def get_human_size_str (n : Int) : String := toString n

/-- The `downloader` label chosen at lines 162-173 of `download`. -/
def selectedDownloader (cfg : Config) (h : Host) : String :=
  match get_available_multithreaded_tool cfg h with
  | some c => if c = "aria2" then "aria2" else "axel"
  | none => "wget"

/-- The process built at lines 158-173 of `download`. -/
def builtProcess (cfg : Config) (h : Host) (req : Request) : Proc :=
  match get_available_multithreaded_tool cfg h with
  | some c =>
      let threads := get_appropriate_threads_number req.maxThreads req.knownSize
      if c = "aria2" then Proc.aria2 req.file_url req.outputPath (finalCwd req) threads
      else Proc.axel req.file_url req.outputPath (finalCwd req) threads cfg.check_ssl
  | none => Proc.wget req.file_url req.outputPath (finalCwd req) cfg.check_ssl

/-- The display name computed at lines 175-178 of `download`. -/
def displayName (req : Request) : String :=
  let name0 := lastPart req.file_url
  match req.outputPath with
  | some p => if !(hasExtension name0) && hasExtension p then lastPart p else name0
  | none => name0

/-- The base substatus text built at lines 181-183 of `download`:
optional status-prefix, bolded backend tag, localized verb, bolded name. -/
def baseMessage (cfg : Config) (h : Host) (req : Request) : String :=
  (match req.substatusPrefix with
   | some pre => if pre = "" then "" else pre ++ " "
   | none => "") ++
  bold ("[" ++ selectedDownloader cfg h ++ "]") ++ " " ++ cfg.i18n_downloading ++
  " " ++ bold (displayName req)

/-- Model of `_concat_file_size`, run in the fire-and-forget probe thread: first
sets the placeholder substatus, then on a truthy probed size appends it
and updates once more; a raise or falsy size leaves the placeholder. -/
def concat_file_size (probe : ProbeOutcome) (base : String) : List Event :=
  let placeholder := Event.substatus (base ++ " ( ? Mb )")
  match probe with
  | ProbeOutcome.raised => [placeholder]
  | ProbeOutcome.value none => [placeholder]
  | ProbeOutcome.value (some s) =>
      if s = "" then [placeholder]
      else [placeholder, Event.substatus (base ++ " ( " ++ s ++ " )")]

/-- The sink updates issued at lines 180-193 of `download` (including
those of the spawned size-probe thread). -/
def watcherEvents (cfg : Config) (w : World) (req : Request) : List Event :=
  if req.hasWatcher then
    let base := baseMessage cfg w.host req
    if req.displayFileSize then
      if intTruthy req.knownSize then
        [Event.substatus
          (base ++ " ( " ++ get_human_size_str (req.knownSize.getD 0) ++ " )")]
      else concat_file_size w.probe base
    else [Event.substatus (base ++ " ( ? Mb )")]
  else []

/-- Outcome of the output-path preparation, lines 143-156. -/
structure PrepOut where
  events : List Event
  fs : String → Bool
  exit : Option TryExit

/-- Lines 143-156 of `download`: delete a stale file at the output path,
or create its parent directory; a creation failure reports to the sink
and returns `False` early (when no watcher is present, `watcher.print`
itself raises, escaping to the outer bare `except`). -/
def prepOutput (w : World) (req : Request) : PrepOut :=
  match req.outputPath with
  | none => ⟨[], w.initFS, none⟩
  | some p =>
      if w.initFS p then
        ⟨[Event.logInfo ("Removing old file found before downloading: " ++ p),
          Event.removeFile p,
          Event.logInfo ("Old file " ++ p ++ " removed")],
         fun q => if q = p then false else w.initFS q, none⟩
      else
        let dir := dirname p
        if w.mkdirOk then ⟨[Event.mkdirAttempt dir], w.initFS, none⟩
        else if req.hasWatcher then
          ⟨[Event.logError ("Could not make download directory " ++ dir),
            Event.sinkPrintMkdirError dir], w.initFS, some TryExit.earlyReturnFalse⟩
        else
          ⟨[Event.logError ("Could not make download directory " ++ dir)], w.initFS,
           some TryExit.raised⟩

/-- Outcome of the whole try-block, lines 142-195. -/
structure TryOut where
  events : List Event
  fs : String → Bool
  exit : TryExit

/-- Lines 142-195 of `download`: preparation, backend resolution,
process build, sink updates, then `handler.handle_simple(process)`. -/
def tryBlock (cfg : Config) (w : World) (req : Request) : TryOut :=
  let prep := prepOutput w req
  match prep.exit with
  | some ex => ⟨prep.events, prep.fs, ex⟩
  | none =>
      let fsAfter : String → Bool :=
        fun q => if q = artifactPath req then w.procWrote else prep.fs q
      let evs := prep.events ++ watcherEvents cfg w req ++
        [Event.launch (builtProcess cfg w.host req)]
      match w.procResult with
      | none => ⟨evs, fsAfter, TryExit.raised⟩
      | some b => ⟨evs, fsAfter, TryExit.completed b⟩

/-- Result of `_rm_bad_file`. -/
structure RmOut where
  events : List Event
  fs : String → Bool

/-- Model of `_rm_bad_file`: if the artifact exists, log and run `rm -rf` on it
(a process whose success flag is ignored by the caller). -/
def rm_bad_file (rmOk : Bool) (fs : String → Bool) (req : Request) : RmOut :=
  let toDelete := artifactPath req
  if fs toDelete then
    ⟨[Event.logInfo ("Removing downloaded file " ++ toDelete), Event.rmBad toDelete],
     if rmOk then fun q => if q = toDelete then false else fs q else fs⟩
  else ⟨[], fs⟩

/-- Observable result of a `download` call.  The embedding is a total
function into `Bool`: every exception inside the try-block is modelled
by `TryExit.raised` and handled, so the call never raises (modelled from
the spec for `ProcessHandler.handle_simple`, which is not under `src/`
and per the spec returns a flag rather than raising). -/
structure DownloadResult where
  ret : Bool
  events : List Event
  finalFS : String → Bool

/-- Model of `download` (lines 133-207): log start, run the try-block; on the
early mkdir-failure return skip everything else; otherwise log elapsed
time, and on failure log an error and best-effort delete the artifact
(twice when an exception was caught: once in the handler, once in the
`if not success` block). -/
def download (cfg : Config) (w : World) (req : Request) : DownloadResult :=
  let file_name := lastPart req.file_url
  let e0 := Event.logInfo ("Downloading " ++ req.file_url)
  let t := tryBlock cfg w req
  match t.exit with
  | TryExit.earlyReturnFalse => ⟨false, e0 :: t.events, t.fs⟩
  | TryExit.raised =>
      let r1 := rm_bad_file w.rmOk t.fs req
      let r2 := rm_bad_file w.rmOk r1.fs req
      ⟨false,
       e0 :: t.events ++ r1.events ++
         [Event.logElapsed file_name,
          Event.logError ("Could not download " ++ file_name)] ++ r2.events,
       r2.fs⟩
  | TryExit.completed b =>
      if b then ⟨true, e0 :: t.events ++ [Event.logElapsed file_name], t.fs⟩
      else
        let r2 := rm_bad_file w.rmOk t.fs req
        ⟨false,
         e0 :: t.events ++
           [Event.logElapsed file_name,
            Event.logError ("Could not download " ++ file_name)] ++ r2.events,
         r2.fs⟩

/-- Is this event the launch of an external download process? -/
def isLaunch : Event → Bool
  | Event.launch _ => true
  | _ => false

/-- Is this event a sink substatus update? -/
def isSubstatus : Event → Bool
  | Event.substatus _ => true
  | _ => false

/-- Is this event the elapsed-time log line? -/
def isElapsedLog : Event → Bool
  | Event.logElapsed _ => true
  | _ => false

/-- Scanning the trace in order: a removal of `path` occurs strictly
before any process launch. -/
def delBeforeLaunch (path : String) : List Event → Bool
  | [] => false
  | e :: rest =>
      if isLaunch e then false
      else if e = Event.removeFile path then true
      else delBeforeLaunch path rest

/-- The event is not a substatus update whose text contains `pat`. -/
def substatusLacks (pat : String) : Event → Bool
  | Event.substatus m => !(strHasSub pat m)
  | _ => true

/-- The call is about to take the fatal directory-creation branch:
an output path is given, nothing exists there, and `mkdir` fails. -/
def hitsMkdirFailure (w : World) (req : Request) : Bool :=
  match req.outputPath with
  | some p => !(w.initFS p) && !w.mkdirOk
  | none => false

/-- A filesystem with no files (concrete sample). -/
def emptyFS : String → Bool := fun _ => false

/-- A filesystem containing exactly `/tmp/file.txt` (concrete sample). -/
def staleFS : String → Bool := fun q => decide (q = "/tmp/file.txt")

/-- Concrete sample host: aria2 and wget installed, axel absent. -/
def sampleHost : Host := ⟨true, false, true⟩

/-- Concrete sample configuration: multi-threaded mode on, no preferred
client. -/
def sampleConfig : Config := ⟨true, none, true, "downloading"⟩

/-- Concrete sample request: explicit output path, watcher present,
size display requested, no known size, no overrides. -/
def sampleRequest : Request :=
  ⟨"http://host/file.txt", some "/tmp/file.txt", none, true, none, true, none, none⟩

/-- Concrete sample world: clean filesystem, mkdir succeeds, the
external process fails after writing a partial artifact, cleanup
succeeds, the probe raises. -/
def sampleFailWorld : World :=
  ⟨emptyFS, true, some false, true, true, ProbeOutcome.raised, sampleHost⟩

/-- Concrete sample world in which the output directory cannot be
created. -/
def mkdirFailWorld : World :=
  ⟨emptyFS, false, some false, false, true, ProbeOutcome.raised, sampleHost⟩

/-- Concrete sample world: the process succeeds but the probe raises. -/
def probeFailWorld : World :=
  ⟨emptyFS, true, some true, true, true, ProbeOutcome.raised, sampleHost⟩

/-- Variant of `probeFailWorld` with a succeeding probe instead. -/
def probeOkWorld : World :=
  ⟨emptyFS, true, some true, true, true, ProbeOutcome.value (some "10.00 MB"), sampleHost⟩

/-- Concrete sample world with a stale file already at the output path. -/
def staleWorld : World :=
  ⟨staleFS, true, some true, true, true, ProbeOutcome.raised, sampleHost⟩

/-- Backend resolution agrees with the spec-side reference policy
(shared helper). -/
theorem resolve_eq_spec (cfg : Config) (h : Host) :
    get_available_multithreaded_tool cfg h = resolveSpecPolicy cfg h := by
  obtain ⟨a2, ax, wg⟩ := h
  unfold get_available_multithreaded_tool resolveSpecPolicy
  cases hE : cfg.multithread_enabled
  · simp
  · rcases hC : cfg.multithread_client with _ | c
    · cases a2 <;> cases ax <;> cases wg <;> decide
    · by_cases h1 : c = "aria2"
      · subst h1; cases a2 <;> cases ax <;> cases wg <;> decide
      · by_cases h2 : c = "axel"
        · subst h2; cases a2 <;> cases ax <;> cases wg <;> decide
        · cases a2 <;> cases ax <;>
            simp [h1, h2, supported_multithread_clients,
              is_multithreaded_client_available, List.find?]

/-- The reference policy resolves to some backend exactly when
multi-threaded mode is enabled and some backend is installed
(shared helper). -/
theorem specPolicy_isSome (cfg : Config) (h : Host) :
    (resolveSpecPolicy cfg h).isSome = (cfg.multithread_enabled && (h.aria2 || h.axel)) := by
  obtain ⟨a2, ax, wg⟩ := h
  unfold resolveSpecPolicy
  cases hE : cfg.multithread_enabled
  · simp
  · rcases hC : cfg.multithread_client with _ | c
    · cases a2 <;> cases ax <;> simp
    · by_cases h1 : c = "aria2"
      · subst h1; cases a2 <;> cases ax <;> simp
      · by_cases h2 : c = "axel"
        · subst h2; cases a2 <;> cases ax <;> simp
        · cases a2 <;> cases ax <;> simp [h1, h2]

/-- C1 (counterexample): with multi-threaded mode disabled, wget absent
and aria2 installed, `can_work` returns false although the claimed
characterization (wget or any multi-connection backend installed) is
true — so `can_work` does depend on the multi-threaded mode switch. -/
theorem can_work_multithread_flag_cex :
    can_work ⟨false, none, true, "downloading"⟩ ⟨true, false, false⟩ = false ∧
    ((⟨true, false, false⟩ : Host).wget || (⟨true, false, false⟩ : Host).aria2 ||
      (⟨true, false, false⟩ : Host).axel) = true := by
  constructor
  · rfl
  · rfl

/-- C1 (amended): `can_work` returns true iff wget is installed OR
(multi-threaded mode is enabled AND at least one multi-connection
backend, aria2 or axel, is installed). -/
theorem can_work_characterization (cfg : Config) (h : Host) :
    can_work cfg h = (h.wget || (cfg.multithread_enabled && (h.aria2 || h.axel))) := by
  unfold can_work is_multithreaded
  rw [resolve_eq_spec, specPolicy_isSome]

/-- C2: the thread-count policy `_get_appropriate_threads_number`
satisfies the reference values — an explicit positive override of 5 wins
for every size; 20 MB maps to 16; 5 MB to 5; 100 bytes to 1; no size to
16 — and, with no positive override and a known size s > 0, yields 16
when s ≥ 16,000,000 and max 1 (floor (s / 1,000,000)) otherwise. -/
theorem thread_count_reference_values :
    (∀ s : Option Int, get_appropriate_threads_number (some 5) s = 5) ∧
    get_appropriate_threads_number none (some 20000000) = 16 ∧
    get_appropriate_threads_number none (some 5000000) = 5 ∧
    get_appropriate_threads_number none (some 100) = 1 ∧
    get_appropriate_threads_number none none = 16 ∧
    (∀ (mt : Option Int) (s : Int), (∀ m, mt = some m → m ≤ 0) → 0 < s →
      get_appropriate_threads_number mt (some s) =
        if 16000000 ≤ s then 16 else max 1 (Int.fdiv s 1000000)) := by
  refine ⟨fun s => rfl, by decide, by decide, by decide, by decide, ?_⟩
  intro mt s hmt hs
  have hOver : (intTruthy mt && decide (0 < mt.getD 0)) = false := by
    rcases mt with _ | m
    · rfl
    · have hm := hmt m rfl
      simp [intTruthy]
      omega
  have hTr : intTruthy (some s) = true := by
    simp [intTruthy]
    omega
  have hdiv : 0 ≤ Int.fdiv s 1000000 :=
    Int.fdiv_nonneg (le_of_lt hs) (by norm_num)
  unfold get_appropriate_threads_number
  rw [hOver]
  simp only [Bool.false_eq_true, if_false, hTr, if_true, Option.getD_some]
  by_cases hBig : (16000000 : Int) ≤ s
  · rw [if_pos hBig, if_pos hBig, if_neg (by norm_num : ¬ (16 : Int) ≤ 0)]
  · rw [if_neg hBig, if_neg hBig]
    by_cases hz : Int.fdiv s 1000000 ≤ 0
    · rw [if_pos hz]
      have h0 : Int.fdiv s 1000000 = 0 := le_antisymm hz hdiv
      rw [h0]
      decide
    · rw [if_neg hz]
      push_neg at hz
      omega

/-- C2 (witness): instantiating the general rule at a 2.5 MB size with
no override gives 2 threads. -/
theorem thread_count_reference_values_witness :
    get_appropriate_threads_number none (some 2500000) = 2 := by
  have h := thread_count_reference_values.2.2.2.2.2 none 2500000
    (fun m hm => by cases hm) (by norm_num)
  rw [h]
  decide

/-- C3: `get_available_multithreaded_tool` equals the reference
resolution policy of the spec: none when multi-threaded mode is
disabled; first available backend in priority order (aria2 before axel)
when the preference is missing or unrecognized; the preference itself
when recognized and available; otherwise the first available remaining
candidate, else none. -/
theorem resolution_matches_reference_policy (cfg : Config) (h : Host) :
    get_available_multithreaded_tool cfg h = resolveSpecPolicy cfg h :=
  resolve_eq_spec cfg h

/-- C9: backend resolution and thread-count computation are
deterministic — two calls with identical inputs (same configuration and
unchanged host availability) return identical outputs. -/
theorem resolution_and_thread_count_deterministic :
    (∀ (mt ks mt' ks' : Option Int), mt = mt' → ks = ks' →
      get_appropriate_threads_number mt ks = get_appropriate_threads_number mt' ks') ∧
    (∀ (cfg cfg' : Config) (h h' : Host), cfg = cfg' → h = h' →
      get_available_multithreaded_tool cfg h = get_available_multithreaded_tool cfg' h') := by
  constructor
  · intro mt ks mt' ks' h1 h2
    rw [h1, h2]
  · intro cfg cfg' h h' h1 h2
    rw [h1, h2]

/-- C9 (witness): the determinism theorem instantiated at a concrete
override/size pair and at a concrete configuration and host. -/
theorem resolution_and_thread_count_deterministic_witness :
    get_appropriate_threads_number (some 5) none =
      get_appropriate_threads_number (some 5) none ∧
    get_available_multithreaded_tool ⟨true, none, true, "downloading"⟩ ⟨true, true, true⟩ =
      get_available_multithreaded_tool ⟨true, none, true, "downloading"⟩ ⟨true, true, true⟩ :=
  ⟨resolution_and_thread_count_deterministic.1 (some 5) none (some 5) none rfl rfl,
   resolution_and_thread_count_deterministic.2 ⟨true, none, true, "downloading"⟩
     ⟨true, none, true, "downloading"⟩ ⟨true, true, true⟩ ⟨true, true, true⟩ rfl rfl⟩

/-- C10: with no positive override and a known size of exactly 0 bytes,
the thread-count computation returns the optimistic default 16 (Python
truthiness treats 0 as absent), not 1. -/
theorem zero_known_size_gives_default_threads :
    get_appropriate_threads_number none (some 0) = 16 ∧
    get_appropriate_threads_number none (some 0) ≠ 1 := by
  decide

/-- Cleanup via `_rm_bad_file` either leaves no artifact behind or records a
deletion attempt (shared helper). -/
theorem rm_attempt (rk : Bool) (fs : String → Bool) (req : Request) :
    (rm_bad_file rk fs req).fs (artifactPath req) = false ∨
    Event.rmBad (artifactPath req) ∈ (rm_bad_file rk fs req).events := by
  unfold rm_bad_file
  by_cases h : fs (artifactPath req)
  · right
    simp [h]
  · left
    simp only [h]
    simp [h]

/-- On the early mkdir-failure return, the artifact path holds no file
(shared helper). -/
theorem earlyExit_fs (cfg : Config) (w : World) (req : Request)
    (h : (tryBlock cfg w req).exit = TryExit.earlyReturnFalse) :
    (tryBlock cfg w req).fs (artifactPath req) = false := by
  unfold tryBlock prepOutput at h ⊢
  rcases hOP : req.outputPath with _ | p
  · rcases hpr : w.procResult with _ | b <;> simp [hOP, hpr] at h
  · by_cases h1 : w.initFS p
    · rcases hpr : w.procResult with _ | b <;> simp [hOP, h1, hpr] at h
    · by_cases h2 : w.mkdirOk
      · rcases hpr : w.procResult with _ | b <;> simp [hOP, h1, h2, hpr] at h
      · by_cases h3 : req.hasWatcher
        · have h1' : w.initFS p = false := by
            simpa using h1
          simp [hOP, h1', h2, h3, artifactPath]
        · simp [hOP, h1, h2, h3] at h

/-- The try-block's exit is independent of the cleanup success flag and
the probe outcome: two worlds agreeing on filesystem, mkdir behaviour,
process outcome, artifact state and host exit identically
(shared helper). -/
theorem tryBlock_exit_indep (cfg : Config) (req : Request) (w w' : World)
    (e1 : w'.initFS = w.initFS) (e2 : w'.mkdirOk = w.mkdirOk)
    (e3 : w'.procResult = w.procResult) (e4 : w'.procWrote = w.procWrote)
    (e6 : w'.host = w.host) :
    (tryBlock cfg w' req).exit = (tryBlock cfg w req).exit := by
  have hprep : prepOutput w' req = prepOutput w req := by
    unfold prepOutput
    rw [e1, e2]
  unfold tryBlock
  rw [hprep, e3, e4, e6]
  rcases hP : (prepOutput w req).exit with _ | ex
  · rcases hpr : w.procResult with _ | b <;> simp [hP, hpr]
  · simp [hP]

/-- The returned flag is determined by the try-block exit alone
(shared helper). -/
theorem download_ret_eq (cfg : Config) (w : World) (req : Request) :
    (download cfg w req).ret =
      (match (tryBlock cfg w req).exit with
       | TryExit.completed true => true
       | _ => false) := by
  unfold download
  rcases hX : (tryBlock cfg w req).exit with _ | _ | b
  · simp [hX]
  · simp [hX]
  · cases b <;> simp [hX]

/-- C4: whenever a `download` call returns failure — the external
process reported failure or an exception was raised during setup,
launch or supervision — either no artifact remains at the output
location (explicit output path, else `<cwd>/<url-derived name>`) or a
best-effort deletion of it was attempted before returning; and the
success flag of the cleanup `rm` process never changes the returned
boolean (the embedding itself is a total function into `Bool`: every
failure mode collapses to a returned `false`, never a raise). -/
theorem download_failure_cleanup (cfg : Config) (w : World) (req : Request) :
    ((download cfg w req).ret = false →
      (download cfg w req).finalFS (artifactPath req) = false ∨
      Event.rmBad (artifactPath req) ∈ (download cfg w req).events) ∧
    (∀ rk rk' : Bool,
      (download cfg ⟨w.initFS, w.mkdirOk, w.procResult, w.procWrote, rk, w.probe, w.host⟩ req).ret =
      (download cfg ⟨w.initFS, w.mkdirOk, w.procResult, w.procWrote, rk', w.probe, w.host⟩ req).ret) := by
  constructor
  · intro hret
    rcases hX : (tryBlock cfg w req).exit with _ | _ | b
    · left
      have hfs := earlyExit_fs cfg w req hX
      simp only [download, hX]
      exact hfs
    · rcases rm_attempt w.rmOk
        (rm_bad_file w.rmOk (tryBlock cfg w req).fs req).fs req with h1 | h1
      · left
        simp only [download, hX]
        exact h1
      · right
        simp only [download, hX]
        simp [h1]
    · cases b
      · rcases rm_attempt w.rmOk (tryBlock cfg w req).fs req with h1 | h1
        · left
          simp only [download, hX]
          exact h1
        · right
          simp only [download, hX]
          simp [h1]
      · exfalso
        rw [download_ret_eq, hX] at hret
        simp at hret
  · intro rk rk'
    rw [download_ret_eq, download_ret_eq,
      tryBlock_exit_indep cfg req
        ⟨w.initFS, w.mkdirOk, w.procResult, w.procWrote, rk', w.probe, w.host⟩
        ⟨w.initFS, w.mkdirOk, w.procResult, w.procWrote, rk, w.probe, w.host⟩
        rfl rfl rfl rfl rfl]

/-- C4 (witness): a failing process run on a sample request triggers
artifact cleanup. -/
theorem download_failure_cleanup_witness :
    (download sampleConfig sampleFailWorld sampleRequest).ret = false ∧
    ((download sampleConfig sampleFailWorld sampleRequest).finalFS
        (artifactPath sampleRequest) = false ∨
      Event.rmBad (artifactPath sampleRequest) ∈
        (download sampleConfig sampleFailWorld sampleRequest).events) :=
  ⟨by decide,
   (download_failure_cleanup sampleConfig sampleFailWorld sampleRequest).1 (by decide)⟩

/-- C5: when an output path is given, no file exists there yet and the
parent-directory creation fails, `download` returns false, never
launches an external process, and reports the localized
cannot-create-directory message for that directory to the sink. -/
theorem mkdir_failure_fatal (cfg : Config) (w : World) (req : Request) (p : String)
    (hOP : req.outputPath = some p) (hNE : w.initFS p = false)
    (hMK : w.mkdirOk = false) (hW : req.hasWatcher = true) :
    (download cfg w req).ret = false ∧
    (∀ pr : Proc, Event.launch pr ∉ (download cfg w req).events) ∧
    Event.sinkPrintMkdirError (dirname p) ∈ (download cfg w req).events := by
  have hD : download cfg w req =
      ⟨false,
       [Event.logInfo ("Downloading " ++ req.file_url),
        Event.logError ("Could not make download directory " ++ dirname p),
        Event.sinkPrintMkdirError (dirname p)], w.initFS⟩ := by
    simp [download, tryBlock, prepOutput, hOP, hNE, hMK, hW]
  rw [hD]
  refine ⟨rfl, ?_, ?_⟩
  · intro pr
    simp
  · simp

/-- C5 (witness): the fatal mkdir-failure theorem instantiated at a
concrete request and world. -/
theorem mkdir_failure_fatal_witness :
    sampleRequest.outputPath = some "/tmp/file.txt" ∧
    mkdirFailWorld.initFS "/tmp/file.txt" = false ∧
    mkdirFailWorld.mkdirOk = false ∧
    sampleRequest.hasWatcher = true ∧
    (download sampleConfig mkdirFailWorld sampleRequest).ret = false ∧
    Event.launch (Proc.wget "http://host/file.txt" (some "/tmp/file.txt") "." true) ∉
      (download sampleConfig mkdirFailWorld sampleRequest).events ∧
    Event.sinkPrintMkdirError (dirname "/tmp/file.txt") ∈
      (download sampleConfig mkdirFailWorld sampleRequest).events := by
  have h := mkdir_failure_fatal sampleConfig mkdirFailWorld sampleRequest
    "/tmp/file.txt" rfl rfl rfl rfl
  exact ⟨rfl, rfl, rfl, rfl, h.1, h.2.1 _, h.2.2⟩

/-- C6 (counterexample): on the directory-creation-failure return path
the call returns false yet no elapsed-time log line is ever emitted, so
elapsed wall-clock time is not logged on every return path. -/
theorem elapsed_time_not_always_logged_cex :
    (download sampleConfig mkdirFailWorld sampleRequest).ret = false ∧
    ((download sampleConfig mkdirFailWorld sampleRequest).events.all
      (fun e => !(isElapsedLog e))) = true := by
  decide

/-- Outside a directory-creation failure, preparation never exits the
try-block (shared helper). -/
theorem prep_exit_none (w : World) (req : Request)
    (h : hitsMkdirFailure w req = false) : (prepOutput w req).exit = none := by
  rcases hOP : req.outputPath with _ | p
  · simp [prepOutput, hOP]
  · by_cases h1 : w.initFS p
    · simp [prepOutput, hOP, h1]
    · by_cases h2 : w.mkdirOk
      · simp [prepOutput, hOP, h1, h2]
      · exfalso
        simp [hitsMkdirFailure, hOP, h1, h2] at h

/-- When preparation does not exit early, the try-block trace is
preparation, sink updates, then the launch (shared helper). -/
theorem tryBlock_events_of_prep_none (cfg : Config) (w : World) (req : Request)
    (h : (prepOutput w req).exit = none) :
    (tryBlock cfg w req).events =
      (prepOutput w req).events ++ watcherEvents cfg w req ++
        [Event.launch (builtProcess cfg w.host req)] := by
  rcases hpr : w.procResult with _ | b <;> simp [tryBlock, h, hpr]

/-- C6 (amended): the elapsed-time log line is emitted on every return
path of `download` — success, process failure, caught exception —
except the early return taken when the output directory cannot be
created. -/
theorem elapsed_logged_unless_mkdir_failure (cfg : Config) (w : World) (req : Request)
    (h : hitsMkdirFailure w req = false) :
    Event.logElapsed (lastPart req.file_url) ∈ (download cfg w req).events := by
  have hP := prep_exit_none w req h
  rcases hpr : w.procResult with _ | b
  · have hX : (tryBlock cfg w req).exit = TryExit.raised := by
      simp [tryBlock, hP, hpr]
    simp [download, hX]
  · cases b
    · have hX : (tryBlock cfg w req).exit = TryExit.completed false := by
        simp [tryBlock, hP, hpr]
      simp [download, hX]
    · have hX : (tryBlock cfg w req).exit = TryExit.completed true := by
        simp [tryBlock, hP, hpr]
      simp [download, hX]

/-- C6 (witness): the amended elapsed-time theorem instantiated at a
sample failing download. -/
theorem elapsed_logged_unless_mkdir_failure_witness :
    hitsMkdirFailure sampleFailWorld sampleRequest = false ∧
    Event.logElapsed (lastPart sampleRequest.file_url) ∈
      (download sampleConfig sampleFailWorld sampleRequest).events :=
  ⟨by decide,
   elapsed_logged_unless_mkdir_failure sampleConfig sampleFailWorld sampleRequest (by decide)⟩

/-- C7 (counterexample): with the probe failing, the download proceeds
and succeeds and the sink does receive a substatus update, yet no
substatus text ever shown contains the exact placeholder "( ? )" — the
placeholder in the code is "( ? Mb )". -/
theorem probe_placeholder_text_cex :
    (download sampleConfig probeFailWorld sampleRequest).ret = true ∧
    ((download sampleConfig probeFailWorld sampleRequest).events.any isSubstatus) = true ∧
    ((download sampleConfig probeFailWorld sampleRequest).events.all
      (substatusLacks "( ? )")) = true := by
  decide

/-- Preparation emits no substatus updates (shared helper). -/
theorem prep_no_substatus (w : World) (req : Request) :
    (prepOutput w req).events.filter isSubstatus = [] := by
  rcases hOP : req.outputPath with _ | p
  · simp [prepOutput, hOP]
  · by_cases h1 : w.initFS p <;> by_cases h2 : w.mkdirOk <;>
      by_cases h3 : req.hasWatcher <;>
        simp [prepOutput, hOP, h1, h2, h3, isSubstatus]

/-- Cleanup emits no substatus updates (shared helper). -/
theorem rm_no_substatus (rk : Bool) (fs : String → Bool) (req : Request) :
    (rm_bad_file rk fs req).events.filter isSubstatus = [] := by
  by_cases h : fs (artifactPath req) <;> simp [rm_bad_file, h, isSubstatus]

/-- C7 (amended): when a watcher is present, size display is on, no
size is known and the content-length probe raises, the failure is
absorbed: the returned boolean is the same as under any other probe
outcome, an external process is still launched, and the only substatus
update on the sink is the base message followed by the placeholder
" ( ? Mb )", never updated afterwards. -/
theorem probe_failure_behavior (cfg : Config) (w : World) (req : Request)
    (hW : req.hasWatcher = true) (hD : req.displayFileSize = true)
    (hK : req.knownSize = none) (hPr : w.probe = ProbeOutcome.raised)
    (hM : hitsMkdirFailure w req = false) :
    (∀ w' : World, w'.initFS = w.initFS → w'.mkdirOk = w.mkdirOk →
      w'.procResult = w.procResult → w'.procWrote = w.procWrote →
      w'.rmOk = w.rmOk → w'.host = w.host →
      (download cfg w' req).ret = (download cfg w req).ret) ∧
    (∃ pr, Event.launch pr ∈ (download cfg w req).events) ∧
    (download cfg w req).events.filter isSubstatus =
      [Event.substatus (baseMessage cfg w.host req ++ " ( ? Mb )")] := by
  have hWE : watcherEvents cfg w req =
      [Event.substatus (baseMessage cfg w.host req ++ " ( ? Mb )")] := by
    simp [watcherEvents, hW, hD, hK, hPr, concat_file_size, intTruthy]
  have hP := prep_exit_none w req hM
  have hTE := tryBlock_events_of_prep_none cfg w req hP
  refine ⟨?_, ?_, ?_⟩
  · intro w' e1 e2 e3 e4 e5 e6
    rw [download_ret_eq, download_ret_eq,
      tryBlock_exit_indep cfg req w w' e1 e2 e3 e4 e6]
  · refine ⟨builtProcess cfg w.host req, ?_⟩
    rcases hpr : w.procResult with _ | b
    · have hX : (tryBlock cfg w req).exit = TryExit.raised := by
        simp [tryBlock, hP, hpr]
      simp [download, hX, hTE]
    · cases b
      · have hX : (tryBlock cfg w req).exit = TryExit.completed false := by
          simp [tryBlock, hP, hpr]
        simp [download, hX, hTE]
      · have hX : (tryBlock cfg w req).exit = TryExit.completed true := by
          simp [tryBlock, hP, hpr]
        simp [download, hX, hTE]
  · rcases hpr : w.procResult with _ | b
    · have hX : (tryBlock cfg w req).exit = TryExit.raised := by
        simp [tryBlock, hP, hpr]
      simp [download, hX, hTE, hWE, List.filter_append, prep_no_substatus,
        rm_no_substatus, isSubstatus]
    · cases b
      · have hX : (tryBlock cfg w req).exit = TryExit.completed false := by
          simp [tryBlock, hP, hpr]
        simp [download, hX, hTE, hWE, List.filter_append, prep_no_substatus,
          rm_no_substatus, isSubstatus]
      · have hX : (tryBlock cfg w req).exit = TryExit.completed true := by
          simp [tryBlock, hP, hpr]
        simp [download, hX, hTE, hWE, List.filter_append, prep_no_substatus,
          rm_no_substatus, isSubstatus]

/-- C7 (witness): the amended probe-failure theorem instantiated on a
sample request, comparing against a world whose probe succeeds. -/
theorem probe_failure_behavior_witness :
    sampleRequest.hasWatcher = true ∧ sampleRequest.displayFileSize = true ∧
    sampleRequest.knownSize = none ∧
    probeFailWorld.probe = ProbeOutcome.raised ∧
    hitsMkdirFailure probeFailWorld sampleRequest = false ∧
    (download sampleConfig probeOkWorld sampleRequest).ret =
      (download sampleConfig probeFailWorld sampleRequest).ret := by
  refine ⟨rfl, rfl, rfl, rfl, by decide, ?_⟩
  exact (probe_failure_behavior sampleConfig probeFailWorld sampleRequest rfl rfl rfl rfl
    (by decide)).1 probeOkWorld rfl rfl rfl rfl rfl rfl

/-- C8: when a file already exists at the explicit output path, the
trace deletes it strictly before any external process launch. -/
theorem stale_file_removed_before_launch (cfg : Config) (w : World) (req : Request)
    (p : String) (hOP : req.outputPath = some p) (hEx : w.initFS p = true) :
    delBeforeLaunch p (download cfg w req).events = true := by
  have hPrep : prepOutput w req =
      ⟨[Event.logInfo ("Removing old file found before downloading: " ++ p),
        Event.removeFile p,
        Event.logInfo ("Old file " ++ p ++ " removed")],
       fun q => if q = p then false else w.initFS q, none⟩ := by
    simp [prepOutput, hOP, hEx]
  have hTE := tryBlock_events_of_prep_none cfg w req (by rw [hPrep])
  rcases hpr : w.procResult with _ | b
  · have hX : (tryBlock cfg w req).exit = TryExit.raised := by
      simp [tryBlock, hPrep, hpr]
    simp [download, hX, hTE, hPrep, delBeforeLaunch, isLaunch]
  · cases b
    · have hX : (tryBlock cfg w req).exit = TryExit.completed false := by
        simp [tryBlock, hPrep, hpr]
      simp [download, hX, hTE, hPrep, delBeforeLaunch, isLaunch]
    · have hX : (tryBlock cfg w req).exit = TryExit.completed true := by
        simp [tryBlock, hPrep, hpr]
      simp [download, hX, hTE, hPrep, delBeforeLaunch, isLaunch]

/-- C8 (witness): the stale-file theorem instantiated on a filesystem
already holding the output file. -/
theorem stale_file_removed_before_launch_witness :
    sampleRequest.outputPath = some "/tmp/file.txt" ∧
    staleWorld.initFS "/tmp/file.txt" = true ∧
    delBeforeLaunch "/tmp/file.txt"
      (download sampleConfig staleWorld sampleRequest).events = true :=
  ⟨rfl, by decide,
   stale_file_removed_before_launch sampleConfig staleWorld sampleRequest
     "/tmp/file.txt" rfl (by decide)⟩

end Downloader
